import Mathlib

/-!
Shallow embedding of the `midjourneyapi` Go client library
(`midjourneyapi.go`): request/response records, their JSON
encoding/decoding as performed by `encoding/json`, the multipart body
built by `Describe` via `mime/multipart`, and the per-operation request
pipelines.  The HTTP transport (`http.DefaultClient.Do`) is modelled as
an explicit function argument; each operation returns the list of HTTP
requests it actually handed to the transport together with its Go
return values.  JSON numbers are modelled as integers, which covers
every numeric field these operations read or write.
-/

namespace Midjourneyapi

/-- A parsed JSON value.  Objects keep their fields in source order
(duplicate keys are possible, as in a real JSON document). -/
inductive Json where
  | null : Json
  | bool (b : Bool) : Json
  | num (n : Int) : Json
  | str (s : String) : Json
  | arr (elems : List Json) : Json
  | obj (fields : List (String × Json)) : Json
  deriving Repr

/-- Errors an operation can surface: a transport failure from
`http.DefaultClient.Do`, a JSON decode failure, or a read failure while
copying the image stream in `Describe`. -/
inductive OpError where
  | transport (msg : String) : OpError
  | decode (msg : String) : OpError
  | readFailure (msg : String) : OpError
  deriving DecidableEq, Repr

/-- `encoding/json` keeps the first error it encounters (`d.saveError`). -/
def firstSome (a b : Option OpError) : Option OpError :=
  match a with
  | some e => some e
  | none => b

/-- ASCII lower-casing of a code point, as Go's case folding uses. -/
def asciiLowerNat (n : Nat) : Nat :=
  if 65 ≤ n ∧ n ≤ 90 then n + 32 else n

/-- ASCII case-insensitive comparison of two character lists. -/
def eqFoldChars : List Char → List Char → Bool
  | [], [] => true
  | a :: as, b :: bs =>
      asciiLowerNat a.toNat == asciiLowerNat b.toNat && eqFoldChars as bs
  | _, _ => false

/-- `encoding/json` matches an object key against a struct field's JSON
tag (or field name) ASCII case-insensitively; within each response
struct of this library no two field tags collide, so the fold-equal
test is the whole matching rule. -/
def keyMatches (tag key : String) : Bool :=
  eqFoldChars key.data tag.data

/-- Unmarshal a JSON value into a `string` struct field holding `cur`:
a JSON string overwrites it, `null` is a no-op, anything else leaves it
unchanged and records an `UnmarshalTypeError`. -/
def storeString (cur : String) : Json → String × Option OpError
  | Json.str s => (s, none)
  | Json.null => (cur, none)
  | _ => (cur, some (OpError.decode "cannot unmarshal value into string field"))

/-- Unmarshal a JSON value into a numeric struct field (Go `int` or
`float64`, both modelled over `Int`). -/
def storeNum (cur : Int) : Json → Int × Option OpError
  | Json.num n => (n, none)
  | Json.null => (cur, none)
  | _ => (cur, some (OpError.decode "cannot unmarshal value into numeric field"))

/-- Unmarshal a JSON value into a `[]string` field: an array replaces
the slice, with non-string elements decoded to their zero value and the
first mismatch recorded. -/
def storeStringArray (cur : List String) : Json → List String × Option OpError
  | Json.arr xs =>
      (xs.map (fun j => match j with | Json.str s => s | _ => ""),
       if xs.all (fun j => match j with | Json.str _ => true | _ => false) then none
       else some (OpError.decode "cannot unmarshal value into string element"))
  | Json.null => (cur, none)
  | _ => (cur, some (OpError.decode "cannot unmarshal value into string slice"))

/-- Unmarshal a JSON value into a struct by folding its object fields
through `step` (which updates the one matching field, if any), mirroring
`encoding/json`: a top-level `null` is a no-op, a non-object is an
`UnmarshalTypeError` that writes nothing, and field-level errors keep
the partially populated struct while reporting the first error. -/
def decodeObjFields (step : α → String × Json → α × Option OpError)
    (init : α) : Json → α × Option OpError
  | Json.null => (init, none)
  | Json.obj fields =>
      fields.foldl
        (fun acc kv =>
          let r := step acc.1 kv
          (r.1, firstSome acc.2 r.2))
        (init, none)
  | _ => (init, some (OpError.decode "cannot unmarshal value into struct"))

/-! ## Request and response records (struct declarations of the source) -/

/-- `ResultRequest`: tags `taskId` and `position,omitempty`. -/
structure ResultRequest where
  taskId : String
  position : Int
  deriving DecidableEq, Repr

/-- `ResultResponse`: tags `status,omitempty` and `percentage,omitempty`
(`Percentage` is a Go `float64`, modelled over `Int`).  Go embeds this
struct in the richer `...ResultResponse` records, which promotes its
fields; the embedding is flattened here. -/
structure ResultResponse where
  status : String
  percentage : Int
  deriving DecidableEq, Repr

/-- `ImagineRequest`: tags `prompt`, `mode,omitempty`,
`callbackURL,omitempty` (`ImagineMode` is a string type). -/
structure ImagineRequest where
  prompt : String
  mode : String
  callbackURL : String
  deriving DecidableEq, Repr

/-- `ImagineResponse`: tag `taskId`. -/
structure ImagineResponse where
  taskId : String
  deriving DecidableEq, Repr

/-- `ImagineResultResponse`: embedded `ResultResponse` plus
`image_url,omitempty`. -/
structure ImagineResultResponse where
  status : String
  percentage : Int
  imageURL : String
  deriving DecidableEq, Repr

/-- `DescribeResponse`: tag `taskId`. -/
structure DescribeResponse where
  taskId : String
  deriving DecidableEq, Repr

/-- `DescribeResultResponse`: embedded `ResultResponse` plus
`content,omitempty`. -/
structure DescribeResultResponse where
  status : String
  percentage : Int
  content : List String
  deriving DecidableEq, Repr

/-- `SeedRequest`: tags `taskId` and `callbackURL` (no `omitempty`). -/
structure SeedRequest where
  taskId : String
  callbackURL : String
  deriving DecidableEq, Repr

/-- `SeedResponse`: field `TaskId` with no JSON tag, so `encoding/json`
matches the key by field name, case-insensitively. -/
structure SeedResponse where
  taskId : String
  deriving DecidableEq, Repr

/-- `SeedResultResponse`: embedded `ResultResponse` plus `seed,omitempty`. -/
structure SeedResultResponse where
  status : String
  percentage : Int
  seed : String
  deriving DecidableEq, Repr

/-- `UpscaleRequest`: tags `taskId`, `position` (no `omitempty`) and
`callback_url,omitempty`. -/
structure UpscaleRequest where
  taskId : String
  position : Int
  callbackURL : String
  deriving DecidableEq, Repr

/-- `UpscaleResponse`: tag `imageURL`. -/
structure UpscaleResponse where
  imageURL : String
  deriving DecidableEq, Repr

/-- `FaceswapRequest`: tags `targetImageURL` and `faceImageURL`. -/
structure FaceswapRequest where
  targetImageURL : String
  faceImageURL : String
  deriving DecidableEq, Repr

/-- `FaceswapResponse`: tag `imageURL`. -/
structure FaceswapResponse where
  imageURL : String
  deriving DecidableEq, Repr

/-! ## JSON encoding of the request structs (`json.NewEncoder(...).Encode`),
field for field in declaration order, with `omitempty` dropping a field
whose value is its type's zero value. -/

/-- Encoding of `ImagineRequest`. -/
def encodeImagineRequest (r : ImagineRequest) : Json :=
  Json.obj ([("prompt", Json.str r.prompt)]
    ++ (if r.mode = "" then [] else [("mode", Json.str r.mode)])
    ++ (if r.callbackURL = "" then [] else [("callbackURL", Json.str r.callbackURL)]))

/-- Encoding of `ResultRequest`: `position` carries `omitempty`. -/
def encodeResultRequest (r : ResultRequest) : Json :=
  Json.obj ([("taskId", Json.str r.taskId)]
    ++ (if r.position = 0 then [] else [("position", Json.num r.position)]))

/-- Encoding of `SeedRequest`: neither field carries `omitempty`, so
both are always serialized. -/
def encodeSeedRequest (r : SeedRequest) : Json :=
  Json.obj [("taskId", Json.str r.taskId), ("callbackURL", Json.str r.callbackURL)]

/-- Encoding of `UpscaleRequest`: only `callback_url` carries `omitempty`. -/
def encodeUpscaleRequest (r : UpscaleRequest) : Json :=
  Json.obj ([("taskId", Json.str r.taskId), ("position", Json.num r.position)]
    ++ (if r.callbackURL = "" then [] else [("callback_url", Json.str r.callbackURL)]))

/-- Encoding of `FaceswapRequest`. -/
def encodeFaceswapRequest (r : FaceswapRequest) : Json :=
  Json.obj [("targetImageURL", Json.str r.targetImageURL),
            ("faceImageURL", Json.str r.faceImageURL)]

/-! ## JSON decoding of the response structs (`json.Decoder.Decode` /
`json.Unmarshal` writing through the result pointer). -/

/-- Field dispatch for `ImagineResponse`. -/
def imagineResponseStep (r : ImagineResponse) (kv : String × Json) :
    ImagineResponse × Option OpError :=
  if keyMatches "taskId" kv.1 then
    let s := storeString r.taskId kv.2
    ({ taskId := s.1 }, s.2)
  else (r, none)

/-- Decoding into `ImagineResponse`. -/
def decodeImagineResponse (init : ImagineResponse) (j : Json) :
    ImagineResponse × Option OpError :=
  decodeObjFields imagineResponseStep init j

/-- Field dispatch for `ImagineResultResponse` (promoted fields
`status`, `percentage`, plus `image_url`). -/
def imagineResultResponseStep (r : ImagineResultResponse) (kv : String × Json) :
    ImagineResultResponse × Option OpError :=
  if keyMatches "status" kv.1 then
    let s := storeString r.status kv.2
    ({ r with status := s.1 }, s.2)
  else if keyMatches "percentage" kv.1 then
    let s := storeNum r.percentage kv.2
    ({ r with percentage := s.1 }, s.2)
  else if keyMatches "image_url" kv.1 then
    let s := storeString r.imageURL kv.2
    ({ r with imageURL := s.1 }, s.2)
  else (r, none)

/-- Decoding into `ImagineResultResponse`. -/
def decodeImagineResultResponse (init : ImagineResultResponse) (j : Json) :
    ImagineResultResponse × Option OpError :=
  decodeObjFields imagineResultResponseStep init j

/-- Field dispatch for `DescribeResponse`. -/
def describeResponseStep (r : DescribeResponse) (kv : String × Json) :
    DescribeResponse × Option OpError :=
  if keyMatches "taskId" kv.1 then
    let s := storeString r.taskId kv.2
    ({ taskId := s.1 }, s.2)
  else (r, none)

/-- Decoding into `DescribeResponse`. -/
def decodeDescribeResponse (init : DescribeResponse) (j : Json) :
    DescribeResponse × Option OpError :=
  decodeObjFields describeResponseStep init j

/-- Field dispatch for `DescribeResultResponse`. -/
def describeResultResponseStep (r : DescribeResultResponse) (kv : String × Json) :
    DescribeResultResponse × Option OpError :=
  if keyMatches "status" kv.1 then
    let s := storeString r.status kv.2
    ({ r with status := s.1 }, s.2)
  else if keyMatches "percentage" kv.1 then
    let s := storeNum r.percentage kv.2
    ({ r with percentage := s.1 }, s.2)
  else if keyMatches "content" kv.1 then
    let s := storeStringArray r.content kv.2
    ({ r with content := s.1 }, s.2)
  else (r, none)

/-- Decoding into `DescribeResultResponse`. -/
def decodeDescribeResultResponse (init : DescribeResultResponse) (j : Json) :
    DescribeResultResponse × Option OpError :=
  decodeObjFields describeResultResponseStep init j

/-- Field dispatch for `SeedResponse`: the untagged `TaskId` field is
matched by its Go name. -/
def seedResponseStep (r : SeedResponse) (kv : String × Json) :
    SeedResponse × Option OpError :=
  if keyMatches "TaskId" kv.1 then
    let s := storeString r.taskId kv.2
    ({ taskId := s.1 }, s.2)
  else (r, none)

/-- Decoding into `SeedResponse`. -/
def decodeSeedResponse (init : SeedResponse) (j : Json) :
    SeedResponse × Option OpError :=
  decodeObjFields seedResponseStep init j

/-- Field dispatch for `SeedResultResponse`. -/
def seedResultResponseStep (r : SeedResultResponse) (kv : String × Json) :
    SeedResultResponse × Option OpError :=
  if keyMatches "status" kv.1 then
    let s := storeString r.status kv.2
    ({ r with status := s.1 }, s.2)
  else if keyMatches "percentage" kv.1 then
    let s := storeNum r.percentage kv.2
    ({ r with percentage := s.1 }, s.2)
  else if keyMatches "seed" kv.1 then
    let s := storeString r.seed kv.2
    ({ r with seed := s.1 }, s.2)
  else (r, none)

/-- Decoding into `SeedResultResponse`. -/
def decodeSeedResultResponse (init : SeedResultResponse) (j : Json) :
    SeedResultResponse × Option OpError :=
  decodeObjFields seedResultResponseStep init j

/-- Field dispatch for `UpscaleResponse`. -/
def upscaleResponseStep (r : UpscaleResponse) (kv : String × Json) :
    UpscaleResponse × Option OpError :=
  if keyMatches "imageURL" kv.1 then
    let s := storeString r.imageURL kv.2
    ({ imageURL := s.1 }, s.2)
  else (r, none)

/-- Decoding into `UpscaleResponse`. -/
def decodeUpscaleResponse (init : UpscaleResponse) (j : Json) :
    UpscaleResponse × Option OpError :=
  decodeObjFields upscaleResponseStep init j

/-- Field dispatch for `FaceswapResponse`. -/
def faceswapResponseStep (r : FaceswapResponse) (kv : String × Json) :
    FaceswapResponse × Option OpError :=
  if keyMatches "imageURL" kv.1 then
    let s := storeString r.imageURL kv.2
    ({ imageURL := s.1 }, s.2)
  else (r, none)

/-- Decoding into `FaceswapResponse`. -/
def decodeFaceswapResponse (init : FaceswapResponse) (j : Json) :
    FaceswapResponse × Option OpError :=
  decodeObjFields faceswapResponseStep init j

/-! ## HTTP layer -/

/-- A multipart body part as assembled by `mime/multipart.Writer`:
its MIME headers and its raw byte content. -/
structure MimePart where
  headers : List (String × String)
  body : List UInt8
  deriving DecidableEq, Repr

/-- The body of an outbound request: the JSON value the encoder wrote,
or the list of multipart parts the multipart writer assembled. -/
inductive RequestBody where
  | json (j : Json) : RequestBody
  | multipart (parts : List MimePart) : RequestBody
  deriving Repr

/-- An outbound HTTP request as built by `http.NewRequest` plus the
`Header.Set` calls. -/
structure HttpRequest where
  method : String
  url : String
  headers : List (String × String)
  body : RequestBody
  deriving Repr

/-- An HTTP response: its status code and the outcome of reading and
JSON-parsing its body (`.error` covers a body read failure or a JSON
syntax error, after which nothing has been written into the result). -/
structure HttpResponse where
  statusCode : Nat
  body : Except OpError Json

/-- The transport: `http.DefaultClient.Do`, modelled as a function from
the request to either a transport error or a response. -/
def Transport : Type :=
  HttpRequest → Except OpError HttpResponse

/-- First header with the given name, as `Header.Get`. -/
def headerGet (hs : List (String × String)) (k : String) : Option String :=
  (hs.find? (fun p => p.1 == k)).map (fun p => p.2)

/-- `const host = "https://api.midjourneyapi.io/v2"`. -/
def host : String := "https://api.midjourneyapi.io/v2"

/-- `Client` holds the API key; `NewClient` stores it verbatim. -/
structure Client where
  apiKey : String
  deriving DecidableEq, Repr

/-- `NewClient`. -/
def NewClient (apiKey : String) : Client :=
  { apiKey := apiKey }

/-- `getArrayFirstOrEmpty`: first element of the variadic slice, or the
type's zero value (`default` is `""` for `String` and `0` for `Int`). -/
def getArrayFirstOrEmpty [Inhabited α] : List α → α
  | [] => default
  | x :: _ => x

/-- The request `postJson` builds: `POST host+path`, headers
`Content-Type: application/json` and `Authorization: <apiKey>`, JSON body. -/
def jsonRequest (c : Client) (path : String) (body : Json) : HttpRequest :=
  { method := "POST"
    url := host ++ path
    headers := [("Content-Type", "application/json"), ("Authorization", c.apiKey)]
    body := RequestBody.json body }

/-- The response half of `postJson`: a transport error or a body
read/parse error is returned with the result still at its initial
(zero) value; otherwise the response JSON is decoded into the result. -/
def handleResponse (decode : α → Json → α × Option OpError) (init : α) :
    Except OpError HttpResponse → α × Option OpError
  | Except.error e => (init, some e)
  | Except.ok res =>
      match res.body with
      | Except.error e => (init, some e)
      | Except.ok j => decode init j

/-- `postJson`: encode the request struct (total for these types),
build the request, send it, decode the response into `init`.  The first
component is the list of requests handed to the transport. -/
def postJson (c : Client) (transport : Transport) (path : String) (body : Json)
    (decode : α → Json → α × Option OpError) (init : α) :
    List HttpRequest × α × Option OpError :=
  let req := jsonRequest c path body
  ([req], handleResponse decode init (transport req))

/-! ## Operations -/

/-- `Imagine`: posts `/imagine` and returns `result.TaskId, err`
(the field value is returned even when `err` is non-nil). -/
def Imagine (c : Client) (transport : Transport)
    (prompt : String) (mode : String) (callbackURL : List String) :
    List HttpRequest × String × Option OpError :=
  let r := postJson c transport "/imagine"
    (encodeImagineRequest
      { prompt := prompt
        mode := mode
        callbackURL := getArrayFirstOrEmpty callbackURL })
    decodeImagineResponse { taskId := "" }
  (r.1, r.2.1.taskId, r.2.2)

/-- `ImagineResult`: posts `/result`; on any error returns a nil
pointer (`none`), otherwise the decoded response. -/
def ImagineResult (c : Client) (transport : Transport)
    (taskId : String) (position : List Int) :
    List HttpRequest × Option ImagineResultResponse × Option OpError :=
  let r := postJson c transport "/result"
    (encodeResultRequest
      { taskId := taskId, position := getArrayFirstOrEmpty position })
    decodeImagineResultResponse { status := "", percentage := 0, imageURL := "" }
  match r.2.2 with
  | some e => (r.1, none, some e)
  | none => (r.1, some r.2.1, none)

/-- `quoteEscaper` / `escapeQuotes`: replace `\` with `\\` and `"` with `\"`. -/
def escapeQuotes (s : String) : String :=
  String.mk (s.data.foldr
    (fun c acc =>
      if c == '\\' then '\\' :: '\\' :: acc
      else if c == '"' then '\\' :: '"' :: acc
      else c :: acc) [])

/-- The part `CreatePart` builds for the image in `Describe`: the
`Content-Disposition` and `Content-Type` headers set on `h`, and the
bytes `io.Copy` wrote into it. -/
def imagePart (imageBytes : List UInt8) : MimePart :=
  { headers := [("Content-Disposition",
                 "form-data; name=\"image\"; filename=\"image.jpg\""),
                ("Content-Type", "image/jpeg")]
    body := imageBytes }

/-- UTF-8 bytes of a string, as written by `io.Writer.Write` on a Go
string. -/
def strBytes (s : String) : List UInt8 :=
  s.toUTF8.toList

/-- The part `Writer.WriteField` appends: a `Content-Disposition:
form-data; name="<escaped name>"` header and the field value as body. -/
def fieldPart (name value : String) : MimePart :=
  { headers := [("Content-Disposition",
                 "form-data; name=\"" ++ escapeQuotes name ++ "\"")]
    body := strBytes value }

/-- The multipart parts `Describe` assembles: the image part, then a
`callbackURL` field part only when at least one callback URL was
supplied. -/
def describeParts (imageBytes : List UInt8) (callbackURL : List String) :
    List MimePart :=
  imagePart imageBytes ::
    (match callbackURL with
     | [] => []
     | cb :: _ => [fieldPart "callbackURL" cb])

/-- The request `Describe` builds: `POST host+"/describe"` with the
multipart content type (`Writer.FormDataContentType`, whose boundary is
chosen by the writer and passed here explicitly) and the `Authorization`
header. -/
def describeRequest (c : Client) (boundary : String) (parts : List MimePart) :
    HttpRequest :=
  { method := "POST"
    url := host ++ "/describe"
    headers := [("Content-Type", "multipart/form-data; boundary=" ++ boundary),
                ("Authorization", c.apiKey)]
    body := RequestBody.multipart parts }

/-- The response half of `Describe`: transport, read and decode errors
all yield `("" , err)`; on success the decoded `TaskId` is returned. -/
def describeHandle : Except OpError HttpResponse → String × Option OpError
  | Except.error e => ("", some e)
  | Except.ok res =>
      match res.body with
      | Except.error e => ("", some e)
      | Except.ok j =>
          match decodeDescribeResponse { taskId := "" } j with
          | (r, none) => (r.taskId, none)
          | (_, some e) => ("", some e)

/-- `Describe`: the image argument models the `io.Reader` — either its
bytes or the error `io.Copy` surfaces.  A copy failure returns before
any request is built or sent. -/
def Describe (c : Client) (transport : Transport) (boundary : String)
    (image : Except OpError (List UInt8)) (callbackURL : List String) :
    List HttpRequest × String × Option OpError :=
  match image with
  | Except.error e => ([], "", some e)
  | Except.ok imageBytes =>
      let req := describeRequest c boundary (describeParts imageBytes callbackURL)
      ([req], describeHandle (transport req))

/-- `DescribeResult`: posts `/result` with only the task id; nil
pointer on error. -/
def DescribeResult (c : Client) (transport : Transport) (taskId : String) :
    List HttpRequest × Option DescribeResultResponse × Option OpError :=
  let r := postJson c transport "/result"
    (encodeResultRequest { taskId := taskId, position := 0 })
    decodeDescribeResultResponse { status := "", percentage := 0, content := [] }
  match r.2.2 with
  | some e => (r.1, none, some e)
  | none => (r.1, some r.2.1, none)

/-- `Seed`: posts `/seed` and returns `result.TaskId, err`. -/
def Seed (c : Client) (transport : Transport)
    (taskId : String) (callbackURL : List String) :
    List HttpRequest × String × Option OpError :=
  let r := postJson c transport "/seed"
    (encodeSeedRequest
      { taskId := taskId, callbackURL := getArrayFirstOrEmpty callbackURL })
    decodeSeedResponse { taskId := "" }
  (r.1, r.2.1.taskId, r.2.2)

/-- `SeedResult`: posts `/result` with only the task id; nil pointer on
error. -/
def SeedResult (c : Client) (transport : Transport) (taskId : String) :
    List HttpRequest × Option SeedResultResponse × Option OpError :=
  let r := postJson c transport "/result"
    (encodeResultRequest { taskId := taskId, position := 0 })
    decodeSeedResultResponse { status := "", percentage := 0, seed := "" }
  match r.2.2 with
  | some e => (r.1, none, some e)
  | none => (r.1, some r.2.1, none)

/-- `Upscale`: posts `/upscale` and returns `result.ImageURL, err`. -/
def Upscale (c : Client) (transport : Transport)
    (taskId : String) (position : Int) (callbackURL : List String) :
    List HttpRequest × String × Option OpError :=
  let r := postJson c transport "/upscale"
    (encodeUpscaleRequest
      { taskId := taskId
        position := position
        callbackURL := getArrayFirstOrEmpty callbackURL })
    decodeUpscaleResponse { imageURL := "" }
  (r.1, r.2.1.imageURL, r.2.2)

/-- `Faceswap`: posts `/faceswap` and returns `result.ImageURL, err`. -/
def Faceswap (c : Client) (transport : Transport)
    (targetImageURL : String) (faceImageURL : String) :
    List HttpRequest × String × Option OpError :=
  let r := postJson c transport "/faceswap"
    (encodeFaceswapRequest
      { targetImageURL := targetImageURL, faceImageURL := faceImageURL })
    decodeFaceswapResponse { imageURL := "" }
  (r.1, r.2.1.imageURL, r.2.2)

/-! ## Observation helpers for the statements -/

/-- Whether a JSON object carries a field with the given name. -/
def hasField (j : Json) (k : String) : Bool :=
  match j with
  | Json.obj fields => fields.any (fun p => p.1 == k)
  | _ => false

/-- Drop an expected literal prefix from a character list. -/
def dropPrefixChars : List Char → List Char → Option (List Char)
  | [], rest => some rest
  | _ :: _, [] => none
  | p :: ps, c :: cs => if p == c then dropPrefixChars ps cs else none

/-- Characters up to the first double quote. -/
def takeUntilQuote : List Char → List Char
  | [] => []
  | c :: cs => if c == '"' then [] else c :: takeUntilQuote cs

/-- The suffix after the first occurrence of a marker, if any. -/
def afterMarker (marker : List Char) : List Char → Option (List Char)
  | [] => dropPrefixChars marker []
  | c :: cs =>
      match dropPrefixChars marker (c :: cs) with
      | some rest => some rest
      | none => afterMarker marker cs

/-- The form name declared by a `Content-Disposition: form-data` header
value (the names this library writes contain no quote or backslash). -/
def dispositionName (s : String) : Option String :=
  (dropPrefixChars "form-data; name=\"".data s.data).map
    (fun rest => String.mk (takeUntilQuote rest))

/-- The filename declared by a `Content-Disposition` header value, when
present. -/
def dispositionFilename (s : String) : Option String :=
  (afterMarker "; filename=\"".data s.data).map
    (fun rest => String.mk (takeUntilQuote rest))

/-- The form name of a multipart part. -/
def partName (p : MimePart) : Option String :=
  (headerGet p.headers "Content-Disposition").bind dispositionName

/-- The filename of a multipart part. -/
def partFilename (p : MimePart) : Option String :=
  (headerGet p.headers "Content-Disposition").bind dispositionFilename

/-- The content type of a multipart part. -/
def partContentType (p : MimePart) : Option String :=
  headerGet p.headers "Content-Type"

/-! ## Claim theorems -/

/-- C1, counterexample: `Seed("T")` with no callback URL serializes a
body that still contains the `callbackURL` field (with the empty string
as value), because `SeedRequest.CallbackURL` carries no `omitempty`
tag; the field is not omitted as claimed. -/
theorem c1_counterexample :
    (Seed { apiKey := "k" } (fun _ => Except.error (OpError.transport "down")) "T" []).1
      = [jsonRequest { apiKey := "k" } "/seed"
          (Json.obj [("taskId", Json.str "T"), ("callbackURL", Json.str "")])]
    ∧ hasField (encodeSeedRequest { taskId := "T", callbackURL := "" }) "callbackURL"
        = true := by
  exact ⟨rfl, by decide⟩

/-- C1, amended: fields tagged `omitempty` (Imagine's `mode` and
`callbackURL`, the result request's `position`, Upscale's
`callback_url`) are omitted from the serialized body when the
corresponding input is absent, and the operations serialize exactly
these encodings; but Seed's `callbackURL` field is not tagged
`omitempty` and is always serialized, as the empty string when no
callback URL is supplied. -/
theorem c1_optional_field_omission :
    (∀ prompt : String,
      hasField (encodeImagineRequest { prompt := prompt, mode := "", callbackURL := "" })
          "mode" = false
      ∧ hasField (encodeImagineRequest { prompt := prompt, mode := "", callbackURL := "" })
          "callbackURL" = false)
    ∧ (∀ t : String,
        hasField (encodeResultRequest { taskId := t, position := 0 }) "position" = false)
    ∧ (∀ (t : String) (p : Int),
        hasField (encodeUpscaleRequest { taskId := t, position := p, callbackURL := "" })
          "callback_url" = false)
    ∧ (∀ (c : Client) (transport : Transport) (prompt mode : String),
        (Imagine c transport prompt mode []).1
          = [jsonRequest c "/imagine"
              (encodeImagineRequest { prompt := prompt, mode := mode, callbackURL := "" })])
    ∧ (∀ (c : Client) (transport : Transport) (t : String),
        (Seed c transport t []).1
          = [jsonRequest c "/seed" (encodeSeedRequest { taskId := t, callbackURL := "" })])
    ∧ (∀ t : String,
        encodeSeedRequest { taskId := t, callbackURL := "" }
          = Json.obj [("taskId", Json.str t), ("callbackURL", Json.str "")])
    ∧ (∀ t cb : String,
        hasField (encodeSeedRequest { taskId := t, callbackURL := cb }) "callbackURL"
          = true) := by
  refine ⟨?_, ?_, ?_, ?_, ?_, ?_, ?_⟩
  · intro prompt
    constructor <;> simp [encodeImagineRequest, hasField]
  · intro t
    simp [encodeResultRequest, hasField]
  · intro t p
    simp [encodeUpscaleRequest, hasField]
  · intro c transport prompt mode
    rfl
  · intro c transport t
    rfl
  · intro t
    rfl
  · intro t cb
    simp [encodeSeedRequest, hasField]

/-- C8: when reading the image stream fails while building the
multipart body, `Describe` returns that error immediately and hands no
request to the transport. -/
theorem c8_read_failure_no_request :
    ∀ (c : Client) (transport : Transport) (boundary : String)
      (e : OpError) (cb : List String),
      Describe c transport boundary (Except.error e) cb = ([], "", some e) := by
  intro c transport boundary e cb
  rfl

/-- C9, counterexample: for `Describe`, supplying zero callback URLs is
not the same as using the empty string — the zero-argument call writes
no `callbackURL` part at all, while an explicit `""` adds an (empty)
field part, so the two multipart bodies differ. -/
theorem c9_counterexample :
    (describeParts [] []).length = 1
    ∧ (describeParts [] [""]).length = 2
    ∧ describeParts [] [] ≠ describeParts [] [""] := by
  refine ⟨rfl, rfl, fun h => ?_⟩
  exact absurd (congrArg List.length h) (by decide)

/-- C9, amended: each variadic optional parameter uses only its first
supplied value, extra values being ignored; for Imagine, Seed, Upscale
and ImagineResult an absent value behaves exactly like the type's zero
value (empty string or 0), while Describe writes no `callbackURL` part
at all when no value is supplied. -/
theorem c9_variadic_first_or_default :
    (∀ (α : Type) (inst : Inhabited α),
      @getArrayFirstOrEmpty α inst [] = @Inhabited.default α inst)
    ∧ (∀ (α : Type) (inst : Inhabited α) (x : α) (rest : List α),
        @getArrayFirstOrEmpty α inst (x :: rest) = x)
    ∧ (∀ (c : Client) (transport : Transport) (prompt mode v : String)
        (rest : List String),
        Imagine c transport prompt mode (v :: rest) = Imagine c transport prompt mode [v])
    ∧ (∀ (c : Client) (transport : Transport) (prompt mode : String),
        Imagine c transport prompt mode [] = Imagine c transport prompt mode [""])
    ∧ (∀ (c : Client) (transport : Transport) (t v : String) (rest : List String),
        Seed c transport t (v :: rest) = Seed c transport t [v])
    ∧ (∀ (c : Client) (transport : Transport) (t : String),
        Seed c transport t [] = Seed c transport t [""])
    ∧ (∀ (c : Client) (transport : Transport) (t : String) (p : Int) (v : String)
        (rest : List String),
        Upscale c transport t p (v :: rest) = Upscale c transport t p [v])
    ∧ (∀ (c : Client) (transport : Transport) (t : String) (p : Int),
        Upscale c transport t p [] = Upscale c transport t p [""])
    ∧ (∀ (c : Client) (transport : Transport) (t : String) (v : Int) (rest : List Int),
        ImagineResult c transport t (v :: rest) = ImagineResult c transport t [v])
    ∧ (∀ (c : Client) (transport : Transport) (t : String),
        ImagineResult c transport t [] = ImagineResult c transport t [0])
    ∧ (∀ (c : Client) (transport : Transport) (boundary : String)
        (image : Except OpError (List UInt8)) (v : String) (rest : List String),
        Describe c transport boundary image (v :: rest)
          = Describe c transport boundary image [v])
    ∧ (∀ imageBytes : List UInt8, describeParts imageBytes [] = [imagePart imageBytes]) := by
  refine ⟨fun α inst => rfl, fun α inst x rest => rfl,
    fun c transport prompt mode v rest => rfl, fun c transport prompt mode => rfl,
    fun c transport t v rest => rfl, fun c transport t => rfl,
    fun c transport t p v rest => rfl, fun c transport t p => rfl,
    fun c transport t v rest => rfl, fun c transport t => rfl,
    ?_, fun imageBytes => rfl⟩
  intro c transport boundary image v rest
  cases image <;> rfl

/-- C10: an explicit position of 0 is indistinguishable from an omitted
position — `ImagineResult(taskId)` and `ImagineResult(taskId, 0)` run
identically — because `ResultRequest.Position` carries `omitempty` and
the `position` field is dropped from the JSON body when it is 0. -/
theorem c10_position_zero_omitted :
    ∀ (c : Client) (transport : Transport) (taskId : String),
      ImagineResult c transport taskId [] = ImagineResult c transport taskId [0]
      ∧ hasField (encodeResultRequest { taskId := taskId, position := 0 }) "position"
          = false := by
  intro c transport taskId
  exact ⟨rfl, by simp [encodeResultRequest, hasField]⟩

/-- C2: for an image stream of N bytes, the multipart body `Describe`
builds contains exactly one part whose form name is `image`, and that
part has filename `image.jpg`, content type `image/jpeg` and body
length N; when a callback URL is supplied, the body additionally
contains exactly one `callbackURL` form field whose value is the
UTF-8 bytes of that exact string; and the request sent carries exactly
these parts. -/
theorem c2_describe_multipart_body :
    (∀ (imageBytes : List UInt8) (cb : List String),
      (describeParts imageBytes cb).filter
          (fun p => partName p == some "image") = [imagePart imageBytes])
    ∧ (∀ imageBytes : List UInt8,
        partName (imagePart imageBytes) = some "image"
        ∧ partFilename (imagePart imageBytes) = some "image.jpg"
        ∧ partContentType (imagePart imageBytes) = some "image/jpeg"
        ∧ (imagePart imageBytes).body.length = imageBytes.length)
    ∧ (∀ (imageBytes : List UInt8) (v : String) (rest : List String),
        (describeParts imageBytes (v :: rest)).filter
            (fun p => partName p == some "callbackURL") = [fieldPart "callbackURL" v]
        ∧ (fieldPart "callbackURL" v).body = strBytes v)
    ∧ (∀ (c : Client) (transport : Transport) (boundary : String)
        (imageBytes : List UInt8) (cb : List String),
        (Describe c transport boundary (Except.ok imageBytes) cb).1
          = [describeRequest c boundary (describeParts imageBytes cb)]) := by
  have himg : dispositionName "form-data; name=\"image\"; filename=\"image.jpg\""
      = some "image" := by decide
  have hfile : dispositionFilename "form-data; name=\"image\"; filename=\"image.jpg\""
      = some "image.jpg" := by decide
  have hcb : dispositionName ("form-data; name=\"" ++ escapeQuotes "callbackURL" ++ "\"")
      = some "callbackURL" := by decide
  refine ⟨?_, ?_, ?_, ?_⟩
  · intro imageBytes cb
    cases cb with
    | nil =>
        simp [describeParts, List.filter, partName, imagePart, fieldPart, headerGet,
          himg]
    | cons v rest =>
        simp [describeParts, List.filter, partName, imagePart, fieldPart, headerGet,
          himg, hcb]
  · intro imageBytes
    exact ⟨by simp [partName, imagePart, headerGet, himg],
      by simp [partFilename, imagePart, headerGet, hfile],
      by simp [partContentType, imagePart, headerGet], rfl⟩
  · intro imageBytes v rest
    constructor
    · simp [describeParts, List.filter, partName, imagePart, fieldPart, headerGet,
        himg, hcb]
    · rfl
  · intro c transport boundary imageBytes cb
    rfl

/-- C3: `Describe` decodes its JSON response into `DescribeResponse`,
whose single field carries the tag `taskId`, and returns that field:
for every response body of the form `\x7b"taskId": s\x7d` it returns
`s` with no error. -/
theorem c3_describe_returns_taskId :
    (∀ (init : DescribeResponse) (s : String),
      decodeDescribeResponse init (Json.obj [("taskId", Json.str s)])
        = ({ taskId := s }, none))
    ∧ (∀ (c : Client) (boundary : String) (imageBytes : List UInt8)
        (cb : List String) (s : String) (status : Nat),
        Describe c
          (fun _ => Except.ok
            { statusCode := status
              body := Except.ok (Json.obj [("taskId", Json.str s)]) })
          boundary (Except.ok imageBytes) cb
          = ([describeRequest c boundary (describeParts imageBytes cb)], s, none)) := by
  have hkey : keyMatches "taskId" "taskId" = true := by decide
  have hdec : ∀ (init : DescribeResponse) (s : String),
      decodeDescribeResponse init (Json.obj [("taskId", Json.str s)])
        = ({ taskId := s }, none) := by
    intro init s
    simp [decodeDescribeResponse, decodeObjFields, describeResponseStep, hkey,
      storeString, firstSome]
  refine ⟨hdec, ?_⟩
  intro c boundary imageBytes cb s status
  simp [Describe, describeHandle, hdec]

/-- C6: every request any operation hands to the transport carries an
`Authorization` header whose value is exactly the API key stored by
`NewClient`, with no transformation. -/
theorem c6_authorization_header :
    (∀ (apiKey : String), (NewClient apiKey).apiKey = apiKey)
    ∧ (∀ (c : Client) (path : String) (body : Json),
        headerGet (jsonRequest c path body).headers "Authorization" = some c.apiKey)
    ∧ (∀ (c : Client) (boundary : String) (parts : List MimePart),
        headerGet (describeRequest c boundary parts).headers "Authorization"
          = some c.apiKey)
    ∧ (∀ (c : Client) (transport : Transport) (prompt mode : String)
        (cb : List String),
        ((Imagine c transport prompt mode cb).1.all
          (fun r => headerGet r.headers "Authorization" == some c.apiKey)) = true)
    ∧ (∀ (c : Client) (transport : Transport) (t : String) (pos : List Int),
        ((ImagineResult c transport t pos).1.all
          (fun r => headerGet r.headers "Authorization" == some c.apiKey)) = true)
    ∧ (∀ (c : Client) (transport : Transport) (boundary : String)
        (image : Except OpError (List UInt8)) (cb : List String),
        ((Describe c transport boundary image cb).1.all
          (fun r => headerGet r.headers "Authorization" == some c.apiKey)) = true)
    ∧ (∀ (c : Client) (transport : Transport) (t : String),
        ((DescribeResult c transport t).1.all
          (fun r => headerGet r.headers "Authorization" == some c.apiKey)) = true)
    ∧ (∀ (c : Client) (transport : Transport) (t : String) (cb : List String),
        ((Seed c transport t cb).1.all
          (fun r => headerGet r.headers "Authorization" == some c.apiKey)) = true)
    ∧ (∀ (c : Client) (transport : Transport) (t : String),
        ((SeedResult c transport t).1.all
          (fun r => headerGet r.headers "Authorization" == some c.apiKey)) = true)
    ∧ (∀ (c : Client) (transport : Transport) (t : String) (p : Int)
        (cb : List String),
        ((Upscale c transport t p cb).1.all
          (fun r => headerGet r.headers "Authorization" == some c.apiKey)) = true)
    ∧ (∀ (c : Client) (transport : Transport) (target face : String),
        ((Faceswap c transport target face).1.all
          (fun r => headerGet r.headers "Authorization" == some c.apiKey)) = true) := by
  have hct : (("Content-Type" : String) == "Authorization") = false := by decide
  have hau : (("Authorization" : String) == "Authorization") = true := by decide
  have hjson : ∀ (c : Client) (path : String) (body : Json),
      headerGet (jsonRequest c path body).headers "Authorization" = some c.apiKey := by
    intro c path body
    simp [jsonRequest, headerGet, List.find?, hct, hau]
  have hmp : ∀ (c : Client) (boundary : String) (parts : List MimePart),
      headerGet (describeRequest c boundary parts).headers "Authorization"
        = some c.apiKey := by
    intro c boundary parts
    simp [describeRequest, headerGet, List.find?, hct, hau]
  refine ⟨fun apiKey => rfl, hjson, hmp, ?_, ?_, ?_, ?_, ?_, ?_, ?_, ?_⟩
  · intro c transport prompt mode cb
    simp [Imagine, postJson, List.all, hjson]
  · intro c transport t pos
    have : (ImagineResult c transport t pos).1
        = [jsonRequest c "/result"
            (encodeResultRequest { taskId := t, position := getArrayFirstOrEmpty pos })] := by
      simp only [ImagineResult, postJson]
      cases h : (handleResponse decodeImagineResultResponse
          { status := "", percentage := 0, imageURL := "" }
          (transport (jsonRequest c "/result"
            (encodeResultRequest { taskId := t, position := getArrayFirstOrEmpty pos })))).2 <;>
        simp [h]
    simp [this, List.all, hjson]
  · intro c transport boundary image cb
    cases image with
    | error e => simp [Describe, List.all]
    | ok imageBytes => simp [Describe, List.all, hmp]
  · intro c transport t
    have : (DescribeResult c transport t).1
        = [jsonRequest c "/result" (encodeResultRequest { taskId := t, position := 0 })] := by
      simp only [DescribeResult, postJson]
      cases h : (handleResponse decodeDescribeResultResponse
          { status := "", percentage := 0, content := [] }
          (transport (jsonRequest c "/result"
            (encodeResultRequest { taskId := t, position := 0 })))).2 <;>
        simp [h]
    simp [this, List.all, hjson]
  · intro c transport t cb
    simp [Seed, postJson, List.all, hjson]
  · intro c transport t
    have : (SeedResult c transport t).1
        = [jsonRequest c "/result" (encodeResultRequest { taskId := t, position := 0 })] := by
      simp only [SeedResult, postJson]
      cases h : (handleResponse decodeSeedResultResponse
          { status := "", percentage := 0, seed := "" }
          (transport (jsonRequest c "/result"
            (encodeResultRequest { taskId := t, position := 0 })))).2 <;>
        simp [h]
    simp [this, List.all, hjson]
  · intro c transport t p cb
    simp [Upscale, postJson, List.all, hjson]
  · intro c transport target face
    simp [Faceswap, postJson, List.all, hjson]

/-- C7: whenever the transport returns an error on the request an
operation built, the operation returns that error value unchanged and
its non-error output is the zero value (empty string or nil pointer). -/
theorem c7_transport_error_propagation :
    (∀ (c : Client) (transport : Transport) (prompt mode : String)
        (cb : List String) (e : OpError),
        transport (jsonRequest c "/imagine"
            (encodeImagineRequest
              { prompt := prompt, mode := mode,
                callbackURL := getArrayFirstOrEmpty cb })) = Except.error e →
        Imagine c transport prompt mode cb
          = ([jsonRequest c "/imagine"
              (encodeImagineRequest
                { prompt := prompt, mode := mode,
                  callbackURL := getArrayFirstOrEmpty cb })], "", some e))
    ∧ (∀ (c : Client) (transport : Transport) (t : String) (pos : List Int)
        (e : OpError),
        transport (jsonRequest c "/result"
            (encodeResultRequest
              { taskId := t, position := getArrayFirstOrEmpty pos })) = Except.error e →
        ImagineResult c transport t pos
          = ([jsonRequest c "/result"
              (encodeResultRequest
                { taskId := t, position := getArrayFirstOrEmpty pos })], none, some e))
    ∧ (∀ (c : Client) (transport : Transport) (boundary : String)
        (imageBytes : List UInt8) (cb : List String) (e : OpError),
        transport (describeRequest c boundary (describeParts imageBytes cb))
            = Except.error e →
        Describe c transport boundary (Except.ok imageBytes) cb
          = ([describeRequest c boundary (describeParts imageBytes cb)], "", some e))
    ∧ (∀ (c : Client) (transport : Transport) (t : String) (e : OpError),
        transport (jsonRequest c "/result"
            (encodeResultRequest { taskId := t, position := 0 })) = Except.error e →
        DescribeResult c transport t
          = ([jsonRequest c "/result"
              (encodeResultRequest { taskId := t, position := 0 })], none, some e))
    ∧ (∀ (c : Client) (transport : Transport) (t : String) (cb : List String)
        (e : OpError),
        transport (jsonRequest c "/seed"
            (encodeSeedRequest
              { taskId := t, callbackURL := getArrayFirstOrEmpty cb })) = Except.error e →
        Seed c transport t cb
          = ([jsonRequest c "/seed"
              (encodeSeedRequest
                { taskId := t, callbackURL := getArrayFirstOrEmpty cb })], "", some e))
    ∧ (∀ (c : Client) (transport : Transport) (t : String) (e : OpError),
        transport (jsonRequest c "/result"
            (encodeResultRequest { taskId := t, position := 0 })) = Except.error e →
        SeedResult c transport t
          = ([jsonRequest c "/result"
              (encodeResultRequest { taskId := t, position := 0 })], none, some e))
    ∧ (∀ (c : Client) (transport : Transport) (t : String) (p : Int)
        (cb : List String) (e : OpError),
        transport (jsonRequest c "/upscale"
            (encodeUpscaleRequest
              { taskId := t, position := p,
                callbackURL := getArrayFirstOrEmpty cb })) = Except.error e →
        Upscale c transport t p cb
          = ([jsonRequest c "/upscale"
              (encodeUpscaleRequest
                { taskId := t, position := p,
                  callbackURL := getArrayFirstOrEmpty cb })], "", some e))
    ∧ (∀ (c : Client) (transport : Transport) (target face : String) (e : OpError),
        transport (jsonRequest c "/faceswap"
            (encodeFaceswapRequest
              { targetImageURL := target, faceImageURL := face })) = Except.error e →
        Faceswap c transport target face
          = ([jsonRequest c "/faceswap"
              (encodeFaceswapRequest
                { targetImageURL := target, faceImageURL := face })], "", some e)) := by
  refine ⟨?_, ?_, ?_, ?_, ?_, ?_, ?_, ?_⟩
  · intro c transport prompt mode cb e h
    simp [Imagine, postJson, h, handleResponse]
  · intro c transport t pos e h
    simp [ImagineResult, postJson, h, handleResponse]
  · intro c transport boundary imageBytes cb e h
    simp [Describe, h, describeHandle]
  · intro c transport t e h
    simp [DescribeResult, postJson, h, handleResponse]
  · intro c transport t cb e h
    simp [Seed, postJson, h, handleResponse]
  · intro c transport t e h
    simp [SeedResult, postJson, h, handleResponse]
  · intro c transport t p cb e h
    simp [Upscale, postJson, h, handleResponse]
  · intro c transport target face e h
    simp [Faceswap, postJson, h, handleResponse]

/-- C7, witness: a transport that always fails with a concrete error
makes each operation return that error and a zero-valued result. -/
theorem c7_transport_error_propagation_witness :
    Imagine { apiKey := "k" } (fun _ => Except.error (OpError.transport "down"))
        "p" "fast" []
      = ([jsonRequest { apiKey := "k" } "/imagine"
          (encodeImagineRequest
            { prompt := "p", mode := "fast", callbackURL := getArrayFirstOrEmpty [] })],
         "", some (OpError.transport "down"))
    ∧ ImagineResult { apiKey := "k" } (fun _ => Except.error (OpError.transport "down"))
        "T" []
      = ([jsonRequest { apiKey := "k" } "/result"
          (encodeResultRequest { taskId := "T", position := getArrayFirstOrEmpty [] })],
         none, some (OpError.transport "down"))
    ∧ Describe { apiKey := "k" } (fun _ => Except.error (OpError.transport "down"))
        "b" (Except.ok []) []
      = ([describeRequest { apiKey := "k" } "b" (describeParts [] [])],
         "", some (OpError.transport "down"))
    ∧ DescribeResult { apiKey := "k" }
        (fun _ => Except.error (OpError.transport "down")) "T"
      = ([jsonRequest { apiKey := "k" } "/result"
          (encodeResultRequest { taskId := "T", position := 0 })],
         none, some (OpError.transport "down"))
    ∧ Seed { apiKey := "k" } (fun _ => Except.error (OpError.transport "down")) "T" []
      = ([jsonRequest { apiKey := "k" } "/seed"
          (encodeSeedRequest { taskId := "T", callbackURL := getArrayFirstOrEmpty [] })],
         "", some (OpError.transport "down"))
    ∧ SeedResult { apiKey := "k" } (fun _ => Except.error (OpError.transport "down")) "T"
      = ([jsonRequest { apiKey := "k" } "/result"
          (encodeResultRequest { taskId := "T", position := 0 })],
         none, some (OpError.transport "down"))
    ∧ Upscale { apiKey := "k" } (fun _ => Except.error (OpError.transport "down"))
        "T" 2 []
      = ([jsonRequest { apiKey := "k" } "/upscale"
          (encodeUpscaleRequest
            { taskId := "T", position := 2, callbackURL := getArrayFirstOrEmpty [] })],
         "", some (OpError.transport "down"))
    ∧ Faceswap { apiKey := "k" } (fun _ => Except.error (OpError.transport "down"))
        "t.png" "f.png"
      = ([jsonRequest { apiKey := "k" } "/faceswap"
          (encodeFaceswapRequest { targetImageURL := "t.png", faceImageURL := "f.png" })],
         "", some (OpError.transport "down")) :=
  ⟨c7_transport_error_propagation.1 _ _ _ _ _ _ rfl,
   c7_transport_error_propagation.2.1 _ _ _ _ _ rfl,
   c7_transport_error_propagation.2.2.1 _ _ _ _ _ _ rfl,
   c7_transport_error_propagation.2.2.2.1 _ _ _ _ rfl,
   c7_transport_error_propagation.2.2.2.2.1 _ _ _ _ _ rfl,
   c7_transport_error_propagation.2.2.2.2.2.1 _ _ _ _ rfl,
   c7_transport_error_propagation.2.2.2.2.2.2.1 _ _ _ _ _ _ rfl,
   c7_transport_error_propagation.2.2.2.2.2.2.2 _ _ _ _ _ rfl⟩

/-- C5: no operation inspects the HTTP status code — `postJson` and
`Describe` behave identically on two responses that differ only in
status, and a response whose body decodes cleanly yields the decoded
result with no error regardless of status. -/
theorem c5_status_code_ignored :
    (∀ (α : Type) (c : Client) (path : String) (body : Json)
        (decode : α → Json → α × Option OpError) (init : α)
        (s₁ s₂ : Nat) (b : Except OpError Json),
        postJson c (fun _ => Except.ok { statusCode := s₁, body := b })
            path body decode init
          = postJson c (fun _ => Except.ok { statusCode := s₂, body := b })
              path body decode init)
    ∧ (∀ (c : Client) (boundary : String) (imageBytes : List UInt8)
        (cb : List String) (s₁ s₂ : Nat) (b : Except OpError Json),
        Describe c (fun _ => Except.ok { statusCode := s₁, body := b })
            boundary (Except.ok imageBytes) cb
          = Describe c (fun _ => Except.ok { statusCode := s₂, body := b })
              boundary (Except.ok imageBytes) cb)
    ∧ (∀ (α : Type) (c : Client) (path : String) (body : Json)
        (decode : α → Json → α × Option OpError) (init : α)
        (status : Nat) (j : Json) (v : α),
        decode init j = (v, none) →
        postJson c (fun _ => Except.ok { statusCode := status, body := Except.ok j })
            path body decode init
          = ([jsonRequest c path body], v, none)) := by
  refine ⟨?_, ?_, ?_⟩
  · intro α c path body decode init s₁ s₂ b
    rfl
  · intro c boundary imageBytes cb s₁ s₂ b
    rfl
  · intro α c path body decode init status j v h
    simp [postJson, handleResponse, h]

/-- C5, witness: a non-2xx status (500) with a well-formed body still
yields the decoded result and a nil error. -/
theorem c5_status_code_ignored_witness :
    postJson { apiKey := "k" }
        (fun _ => Except.ok
          { statusCode := 500, body := Except.ok (Json.obj [("taskId", Json.str "T1")]) })
        "/imagine" (Json.obj []) decodeImagineResponse { taskId := "" }
      = ([jsonRequest { apiKey := "k" } "/imagine" (Json.obj [])],
         { taskId := "T1" }, none) :=
  c5_status_code_ignored.2.2 ImagineResponse { apiKey := "k" } "/imagine" (Json.obj [])
    decodeImagineResponse { taskId := "" } 500 (Json.obj [("taskId", Json.str "T1")])
    { taskId := "T1" } (by decide)

/-- C4, counterexample: a response body whose prefix decodes before the
failure can leave a non-zero result: on
`\x7b"taskId": "T1", "taskId": 1\x7d` the decoder stores `"T1"`, then
records a type error for the duplicate key, and `Imagine` returns
`result.TaskId, err` — the non-zero string `"T1"` together with the
decode error, not the zero value the claim requires. -/
theorem c4_counterexample :
    (Imagine { apiKey := "k" }
        (fun _ => Except.ok
          { statusCode := 200
            body := Except.ok
              (Json.obj [("taskId", Json.str "T1"), ("taskId", Json.num 1)]) })
        "p" "" []).2
      = ("T1", some (OpError.decode "cannot unmarshal value into string field"))
    ∧ ("T1" : String) ≠ "" := by
  constructor
  · have hdec : decodeImagineResponse { taskId := "" }
        (Json.obj [("taskId", Json.str "T1"), ("taskId", Json.num 1)])
        = ({ taskId := "T1" },
           some (OpError.decode "cannot unmarshal value into string field")) := by
      decide
    simp [Imagine, postJson, handleResponse, hdec]
  · decide

/-- C4, amended: on a response body that does not decode into the
expected shape the operation returns the decode error; `ImagineResult`,
`DescribeResult` and `SeedResult` then return a nil pointer and
`Describe` the empty string in every such case, and every operation
returns its zero value when the body could not be read or parsed at all
or is not a JSON object; but `Imagine`, `Seed`, `Upscale` and
`Faceswap` return whatever the decoder stored in the result field
alongside the error, which can be non-zero when a prefix of an object
body populated the field before the failure. -/
theorem c4_decode_failure_results :
    (∀ (c : Client) (t : String) (pos : List Int) (status : Nat) (j : Json)
        (r : ImagineResultResponse) (e : OpError),
        decodeImagineResultResponse { status := "", percentage := 0, imageURL := "" } j
            = (r, some e) →
        (ImagineResult c
            (fun _ => Except.ok { statusCode := status, body := Except.ok j }) t pos).2
          = (none, some e))
    ∧ (∀ (c : Client) (t : String) (status : Nat) (j : Json)
        (r : DescribeResultResponse) (e : OpError),
        decodeDescribeResultResponse { status := "", percentage := 0, content := [] } j
            = (r, some e) →
        (DescribeResult c
            (fun _ => Except.ok { statusCode := status, body := Except.ok j }) t).2
          = (none, some e))
    ∧ (∀ (c : Client) (t : String) (status : Nat) (j : Json)
        (r : SeedResultResponse) (e : OpError),
        decodeSeedResultResponse { status := "", percentage := 0, seed := "" } j
            = (r, some e) →
        (SeedResult c
            (fun _ => Except.ok { statusCode := status, body := Except.ok j }) t).2
          = (none, some e))
    ∧ (∀ (c : Client) (boundary : String) (imageBytes : List UInt8)
        (cb : List String) (status : Nat) (j : Json)
        (r : DescribeResponse) (e : OpError),
        decodeDescribeResponse { taskId := "" } j = (r, some e) →
        (Describe c (fun _ => Except.ok { statusCode := status, body := Except.ok j })
            boundary (Except.ok imageBytes) cb).2
          = ("", some e))
    ∧ (∀ (c : Client) (prompt mode : String) (cb : List String) (status : Nat)
        (j : Json),
        (∀ fs, j ≠ Json.obj fs) → j ≠ Json.null →
        (Imagine c (fun _ => Except.ok { statusCode := status, body := Except.ok j })
            prompt mode cb).2
          = ("", some (OpError.decode "cannot unmarshal value into struct")))
    ∧ (∀ (c : Client) (t : String) (cb : List String) (status : Nat) (j : Json),
        (∀ fs, j ≠ Json.obj fs) → j ≠ Json.null →
        (Seed c (fun _ => Except.ok { statusCode := status, body := Except.ok j })
            t cb).2
          = ("", some (OpError.decode "cannot unmarshal value into struct")))
    ∧ (∀ (c : Client) (t : String) (p : Int) (cb : List String) (status : Nat)
        (j : Json),
        (∀ fs, j ≠ Json.obj fs) → j ≠ Json.null →
        (Upscale c (fun _ => Except.ok { statusCode := status, body := Except.ok j })
            t p cb).2
          = ("", some (OpError.decode "cannot unmarshal value into struct")))
    ∧ (∀ (c : Client) (target face : String) (status : Nat) (j : Json),
        (∀ fs, j ≠ Json.obj fs) → j ≠ Json.null →
        (Faceswap c (fun _ => Except.ok { statusCode := status, body := Except.ok j })
            target face).2
          = ("", some (OpError.decode "cannot unmarshal value into struct")))
    ∧ (∀ (c : Client) (prompt mode : String) (cb : List String) (status : Nat)
        (e : OpError),
        (Imagine c (fun _ => Except.ok { statusCode := status, body := Except.error e })
            prompt mode cb).2 = ("", some e))
    ∧ (∀ (c : Client) (t : String) (pos : List Int) (status : Nat) (e : OpError),
        (ImagineResult c
            (fun _ => Except.ok { statusCode := status, body := Except.error e })
            t pos).2 = (none, some e))
    ∧ (∀ (c : Client) (boundary : String) (imageBytes : List UInt8)
        (cb : List String) (status : Nat) (e : OpError),
        (Describe c
            (fun _ => Except.ok { statusCode := status, body := Except.error e })
            boundary (Except.ok imageBytes) cb).2 = ("", some e))
    ∧ (∀ (c : Client) (t : String) (status : Nat) (e : OpError),
        (DescribeResult c
            (fun _ => Except.ok { statusCode := status, body := Except.error e })
            t).2 = (none, some e))
    ∧ (∀ (c : Client) (t : String) (cb : List String) (status : Nat) (e : OpError),
        (Seed c (fun _ => Except.ok { statusCode := status, body := Except.error e })
            t cb).2 = ("", some e))
    ∧ (∀ (c : Client) (t : String) (status : Nat) (e : OpError),
        (SeedResult c
            (fun _ => Except.ok { statusCode := status, body := Except.error e })
            t).2 = (none, some e))
    ∧ (∀ (c : Client) (t : String) (p : Int) (cb : List String) (status : Nat)
        (e : OpError),
        (Upscale c (fun _ => Except.ok { statusCode := status, body := Except.error e })
            t p cb).2 = ("", some e))
    ∧ (∀ (c : Client) (target face : String) (status : Nat) (e : OpError),
        (Faceswap c
            (fun _ => Except.ok { statusCode := status, body := Except.error e })
            target face).2 = ("", some e)) := by
  have hbad : ∀ (α : Type) (step : α → String × Json → α × Option OpError)
      (init : α) (j : Json),
      (∀ fs, j ≠ Json.obj fs) → j ≠ Json.null →
      decodeObjFields step init j
        = (init, some (OpError.decode "cannot unmarshal value into struct")) := by
    intro α step init j hobj hnull
    cases j with
    | null => exact absurd rfl hnull
    | obj fields => exact absurd rfl (hobj fields)
    | bool b => rfl
    | num n => rfl
    | str s => rfl
    | arr xs => rfl
  refine ⟨?_, ?_, ?_, ?_, ?_, ?_, ?_, ?_, ?_, ?_, ?_, ?_, ?_, ?_, ?_, ?_⟩
  · intro c t pos status j r e h
    simp [ImagineResult, postJson, handleResponse, h]
  · intro c t status j r e h
    simp [DescribeResult, postJson, handleResponse, h]
  · intro c t status j r e h
    simp [SeedResult, postJson, handleResponse, h]
  · intro c boundary imageBytes cb status j r e h
    simp [Describe, describeHandle, h]
  · intro c prompt mode cb status j hobj hnull
    simp [Imagine, postJson, handleResponse, decodeImagineResponse,
      hbad _ imagineResponseStep _ j hobj hnull]
  · intro c t cb status j hobj hnull
    simp [Seed, postJson, handleResponse, decodeSeedResponse,
      hbad _ seedResponseStep _ j hobj hnull]
  · intro c t p cb status j hobj hnull
    simp [Upscale, postJson, handleResponse, decodeUpscaleResponse,
      hbad _ upscaleResponseStep _ j hobj hnull]
  · intro c target face status j hobj hnull
    simp [Faceswap, postJson, handleResponse, decodeFaceswapResponse,
      hbad _ faceswapResponseStep _ j hobj hnull]
  · intro c prompt mode cb status e
    rfl
  · intro c t pos status e
    rfl
  · intro c boundary imageBytes cb status e
    rfl
  · intro c t status e
    rfl
  · intro c t cb status e
    rfl
  · intro c t status e
    rfl
  · intro c t p cb status e
    rfl
  · intro c target face status e
    rfl

/-- C4, witness: concrete non-object bodies make the pointer-returning
operations return nil, `Describe` return the empty string, and the
string-returning operations return their zero value, each with a
decode error. -/
theorem c4_decode_failure_results_witness :
    (ImagineResult { apiKey := "k" }
        (fun _ => Except.ok { statusCode := 200, body := Except.ok (Json.bool true) })
        "T" []).2
      = (none, some (OpError.decode "cannot unmarshal value into struct"))
    ∧ (DescribeResult { apiKey := "k" }
        (fun _ => Except.ok { statusCode := 200, body := Except.ok (Json.bool true) })
        "T").2
      = (none, some (OpError.decode "cannot unmarshal value into struct"))
    ∧ (SeedResult { apiKey := "k" }
        (fun _ => Except.ok { statusCode := 200, body := Except.ok (Json.bool true) })
        "T").2
      = (none, some (OpError.decode "cannot unmarshal value into struct"))
    ∧ (Describe { apiKey := "k" }
        (fun _ => Except.ok { statusCode := 200, body := Except.ok (Json.bool true) })
        "b" (Except.ok []) []).2
      = ("", some (OpError.decode "cannot unmarshal value into struct"))
    ∧ (Imagine { apiKey := "k" }
        (fun _ => Except.ok { statusCode := 200, body := Except.ok (Json.bool true) })
        "p" "" []).2
      = ("", some (OpError.decode "cannot unmarshal value into struct"))
    ∧ (Seed { apiKey := "k" }
        (fun _ => Except.ok { statusCode := 200, body := Except.ok (Json.bool true) })
        "T" []).2
      = ("", some (OpError.decode "cannot unmarshal value into struct"))
    ∧ (Upscale { apiKey := "k" }
        (fun _ => Except.ok { statusCode := 200, body := Except.ok (Json.bool true) })
        "T" 2 []).2
      = ("", some (OpError.decode "cannot unmarshal value into struct"))
    ∧ (Faceswap { apiKey := "k" }
        (fun _ => Except.ok { statusCode := 200, body := Except.ok (Json.bool true) })
        "t.png" "f.png").2
      = ("", some (OpError.decode "cannot unmarshal value into struct")) :=
  ⟨c4_decode_failure_results.1 _ "T" [] 200 (Json.bool true)
     { status := "", percentage := 0, imageURL := "" } _ (by decide),
   c4_decode_failure_results.2.1 _ "T" 200 (Json.bool true)
     { status := "", percentage := 0, content := [] } _ (by decide),
   c4_decode_failure_results.2.2.1 _ "T" 200 (Json.bool true)
     { status := "", percentage := 0, seed := "" } _ (by decide),
   c4_decode_failure_results.2.2.2.1 _ "b" [] [] 200 (Json.bool true)
     { taskId := "" } _ (by decide),
   c4_decode_failure_results.2.2.2.2.1 _ "p" "" [] 200 (Json.bool true)
     (by intro fs h; exact Json.noConfusion h) (by intro h; exact Json.noConfusion h),
   c4_decode_failure_results.2.2.2.2.2.1 _ "T" [] 200 (Json.bool true)
     (by intro fs h; exact Json.noConfusion h) (by intro h; exact Json.noConfusion h),
   c4_decode_failure_results.2.2.2.2.2.2.1 _ "T" 2 [] 200 (Json.bool true)
     (by intro fs h; exact Json.noConfusion h) (by intro h; exact Json.noConfusion h),
   c4_decode_failure_results.2.2.2.2.2.2.2.1 _ "t.png" "f.png" 200 (Json.bool true)
     (by intro fs h; exact Json.noConfusion h) (by intro h; exact Json.noConfusion h)⟩

end Midjourneyapi
